import Mathlib

/-!
Shallow embedding of the virtualized-list harvesting engine in
src/linkedin_mcp_server/tools/recruiter.py, centered on the tool
get_applicants_with_contact (lines 357-843) and get_job_applicants
(lines 38-166).  Browser interactions are modeled by explicit
environments: every value the code reads from the page (card lists,
selector hits, attribute values, exception outcomes) is supplied by an
environment record, and each Python helper becomes a total Lean
function over that data.  Pacing sleeps, logging and prints have no
data flow into the returned values and are omitted.
-/

/- String utilities mirroring the Python string primitives used by the
source (substring test via the in operator, str.replace, str.strip,
str.split("?")[0]).  They are written structurally over the character
list so that concrete inputs reduce inside the kernel. -/

def prefAt : List Char → List Char → Bool
  | [], _ => true
  | _ :: _, [] => false
  | p :: ps, c :: cs => p == c && prefAt ps cs

def subAt (pat : List Char) : List Char → Bool
  | [] => prefAt pat []
  | c :: t => prefAt pat (c :: t) || subAt pat t

/- Python: pat in s (for the nonempty literal patterns the source uses). -/
def strContains (s pat : String) : Bool := subAt pat.data s.data

def replAllAux (pat rep : List Char) : Nat → List Char → List Char
  | _, [] => []
  | 0, s => s
  | Nat.succ fuel, c :: t =>
    if pat ≠ [] ∧ prefAt pat (c :: t) then
      rep ++ replAllAux pat rep fuel (List.drop (pat.length - 1) t)
    else c :: replAllAux pat rep fuel t

/- Python: s.replace(pat, rep), replacing every occurrence left to right
(the source only calls it with nonempty pat). -/
def strReplace (s pat rep : String) : String :=
  String.mk (replAllAux pat.data rep.data s.data.length s.data)

/- Python: s.strip(). -/
def strTrim (s : String) : String :=
  String.mk (((s.data.dropWhile Char.isWhitespace).reverse.dropWhile
      Char.isWhitespace).reverse)

/- Python: s.split("?")[0], used on hrefs with the single-char separator. -/
def beforeQuery (s : String) : String :=
  String.mk (s.data.takeWhile (fun c => c != '?'))

/- Python truthiness of an optional string (None and "" are falsy). -/
def truthy : Option String → Bool
  | none => false
  | some s => s != ""

/- recruiter.py line 762: name = aria.replace(", Verified profile", "").strip() -/
def cardName (a : String) : String := strTrim (strReplace a ", Verified profile" "")

/- Outcome of one locator strategy in a fallback chain that reads
element text: the element is missing (NoSuchElementException, caught by
the per-strategy handler), or the read raises a transient exception
(StaleElementReferenceException, NOT caught by the per-strategy handler
which names only NoSuchElementException, so it escapes to the enclosing
function-level handler), or the element is found with the given text. -/
inductive StratRes
  | notFound
  | raised
  | text (s : String)
deriving DecidableEq

structure ChainOut where
  value : Option String
  raised : Bool
  attempted : Nat
deriving DecidableEq

def bumpAttempt (r : ChainOut) : ChainOut := { r with attempted := r.attempted + 1 }

/- recruiter.py lines 518-531 (and 533-545): iterate the ordered
selector list; a missing element moves to the next selector; a found
element with nonempty text wins (break) and the stored value is
text.strip(); a found element with empty text moves on; a transient
exception escapes the loop.  attempted counts how many strategies were
examined. -/
def textChainEval : List StratRes → ChainOut
  | [] => ⟨none, false, 0⟩
  | StratRes.notFound :: rest => bumpAttempt (textChainEval rest)
  | StratRes.raised :: _ => ⟨none, true, 1⟩
  | StratRes.text s :: rest =>
    if s = "" then bumpAttempt (textChainEval rest)
    else ⟨some (strTrim s), false, 1⟩

/- Outcome of one locator strategy that reads an element with an href
attribute and a text: missing, transient exception, or found with the
given href (None when the attribute is absent) and text. -/
inductive ElemRes
  | notFound
  | raised
  | elem (href : Option String) (txt : String)
deriving DecidableEq

/- recruiter.py lines 464-480: phone chain.  For a found element:
if phone_val and "tel:" in phone_val -> href value with tel: stripped;
elif phone_elem.text -> text.strip(); else move to the next selector. -/
def phoneChainEval : List ElemRes → ChainOut
  | [] => ⟨none, false, 0⟩
  | ElemRes.notFound :: rest => bumpAttempt (phoneChainEval rest)
  | ElemRes.raised :: _ => ⟨none, true, 1⟩
  | ElemRes.elem href txt :: rest =>
    match href with
    | some h =>
      if h ≠ "" ∧ strContains h "tel:" then ⟨some (strReplace h "tel:" ""), false, 1⟩
      else if txt ≠ "" then ⟨some (strTrim txt), false, 1⟩
      else bumpAttempt (phoneChainEval rest)
    | none =>
      if txt ≠ "" then ⟨some (strTrim txt), false, 1⟩
      else bumpAttempt (phoneChainEval rest)

/- recruiter.py lines 483-498: email chain.  For a found element:
if email_val and "mailto:" in email_val -> href value with mailto:
stripped; elif email_elem.text and "@" in email_elem.text ->
text.strip(); else move on. -/
def emailChainEval : List ElemRes → ChainOut
  | [] => ⟨none, false, 0⟩
  | ElemRes.notFound :: rest => bumpAttempt (emailChainEval rest)
  | ElemRes.raised :: _ => ⟨none, true, 1⟩
  | ElemRes.elem href txt :: rest =>
    match href with
    | some h =>
      if h ≠ "" ∧ strContains h "mailto:" then
        ⟨some (strReplace h "mailto:" ""), false, 1⟩
      else if txt ≠ "" ∧ strContains txt "@" then ⟨some (strTrim txt), false, 1⟩
      else bumpAttempt (emailChainEval rest)
    | none =>
      if txt ≠ "" ∧ strContains txt "@" then ⟨some (strTrim txt), false, 1⟩
      else bumpAttempt (emailChainEval rest)

/- Outcome of the single profile-link lookup (recruiter.py lines
547-556): missing (caught, pass), transient exception (escapes to the
function-level handler), or found with the given href attribute. -/
inductive LinkRes
  | notFound
  | raised
  | found (href : Option String)
deriving DecidableEq

/- What the detail panel offers to extract_applicant_details: the
per-strategy outcomes for the name chain (3 selectors in the source),
the headline chain (2 selectors), and the profile link lookup. -/
structure Panel where
  nameStrats : List StratRes
  headlineStrats : List StratRes
  profileLink : LinkRes
deriving DecidableEq

structure Details where
  name : Option String
  headline : Option String
  location : Option String
  profile_url : Option String
deriving DecidableEq

/- recruiter.py lines 512-561, extract_applicant_details.  The whole
body sits in one try/except Exception handler that returns the details
dict filled so far; the per-selector handlers catch only
NoSuchElementException.  Hence a transient (raised) outcome in a chain
ends the whole helper early, keeping fields already read and leaving
later fields at None.  The location key of the dict is never assigned
anywhere in the function, so it stays None. -/
def extract_applicant_details (p : Panel) : Details :=
  let d0 : Details := ⟨none, none, none, none⟩
  let nr := textChainEval p.nameStrats
  if nr.raised then d0
  else
    let d1 := { d0 with name := nr.value }
    let hr := textChainEval p.headlineStrats
    if hr.raised then d1
    else
      let d2 := { d1 with headline := hr.value }
      match p.profileLink with
      | LinkRes.raised => d2
      | LinkRes.notFound => d2
      | LinkRes.found href =>
        match href with
        | none => d2
        | some h =>
          if h ≠ "" ∧ strContains h "/in/" then
            { d2 with profile_url := some (beforeQuery h) }
          else d2

structure Button where
  displayed : Bool
  enabled : Bool
deriving DecidableEq

/- What the page offers to click_contact_and_extract: for each of the
three Contact-button selectors the list of matching buttons with their
displayed/enabled state (a selector that raises behaves like an empty
hit list, since its handler catches every exception and continues),
whether the JS click on the found button raises, and the phone and
email chain outcomes. -/
structure ContactPanel where
  btnSelectors : List (List Button)
  clickRaises : Bool
  phoneStrats : List ElemRes
  emailStrats : List ElemRes
deriving DecidableEq

structure ContactInfo where
  phone : Option String
  email : Option String
deriving DecidableEq

/- recruiter.py lines 437-454: scan the selector lists in order and
take the first button that is displayed and enabled. -/
def findContactBtn (sels : List (List Button)) : Bool :=
  sels.any (fun btns => btns.any (fun b => b.displayed && b.enabled))

/- recruiter.py lines 431-510, click_contact_and_extract.  The whole
body sits in one try/except Exception handler returning the contact
dict filled so far.  No Contact button -> early return with both fields
None.  A transient exception while clicking or while reading the phone
chain returns before the email chain runs; one during the email chain
keeps the phone value.  The Escape-key dismissal (lines 501-505) is
best effort and has no effect on the returned data. -/
def click_contact_and_extract (c : ContactPanel) : ContactInfo :=
  let ci0 : ContactInfo := ⟨none, none⟩
  if ¬ findContactBtn c.btnSelectors then ci0
  else if c.clickRaises then ci0
  else
    let pr := phoneChainEval c.phoneStrats
    if pr.raised then ci0
    else
      let ci1 := { ci0 with phone := pr.value }
      let er := emailChainEval c.emailStrats
      if er.raised then ci1
      else { ci1 with email := er.value }

structure Applicant where
  name : Option String
  headline : Option String
  location : Option String
  profile_url : Option String
  phone : Option String
  email : Option String
deriving DecidableEq

/- One applicant card handle returned by get_applicant_cards
(recruiter.py lines 420-429), together with the outcomes of the
interactions the scan loop performs on it: whether reading its
aria-label raises a transient exception, the aria-label value (None
when the attribute is absent), whether the combined scroll-into-view
plus click JS call (lines 770-773) raises, and the detail-panel plus
contact-popup contents observed after selecting this card. -/
structure Card where
  ariaRaises : Bool
  aria : Option String
  clickRaises : Bool
  panel : Panel
  contact : ContactPanel
deriving DecidableEq

/- Run-scoped mutable state of the scan-and-extract phase of
get_applicants_with_contact: total_processed, processed_names (a
Python set, modeled as the insertion-ordered list of inserted keys),
applicants_with_contact, consecutive_no_progress and scroll_position
(lines 384-385 and 724-728). -/
structure ScanState where
  totalProcessed : Nat
  processedNames : List String
  applicants : List Applicant
  consecutiveNoProgress : Nat
  scrollPosition : Nat
deriving DecidableEq

def scanInit : ScanState := ⟨0, [], [], 0, 0⟩

/- recruiter.py lines 757-804: the body of the per-card for loop, for
one card already past the break check.  A transient exception while
reading the aria-label skips the card (line 800).  A missing or
non-matching aria-label skips the card (lines 759-760).  An empty or
already-seen name skips the card (line 763).  Otherwise the name is
inserted into processed_names FIRST (line 767); a transient exception
from the scroll-and-click JS (lines 770-773) is then caught at line
800 and skips the rest, so the key stays inserted but no item is
appended.  Otherwise the details and contact info are read (both
helpers are total: they swallow their own exceptions) and the item is
appended with phone and email from the contact popup, and
total_processed is incremented; the returned flag records whether
processed_this_round was incremented for this card. -/
def processCard1 (c : Card) (s : ScanState) : ScanState × Bool :=
  if c.ariaRaises then (s, false)
  else
    match c.aria with
    | none => (s, false)
    | some a =>
      if strContains a ", Verified profile" then
        let name := cardName a
        if name = "" ∨ name ∈ s.processedNames then (s, false)
        else
          let s1 := { s with processedNames := s.processedNames ++ [name] }
          if c.clickRaises then (s1, false)
          else
            let details := extract_applicant_details c.panel
            let finalName : Option String :=
              if truthy details.name then details.name else some name
            let contact := click_contact_and_extract c.contact
            let item : Applicant :=
              { name := finalName, headline := details.headline,
                location := details.location, profile_url := details.profile_url,
                phone := contact.phone, email := contact.email }
            ({ s1 with applicants := s1.applicants ++ [item],
                       totalProcessed := s1.totalProcessed + 1 }, true)
      else (s, false)

/- recruiter.py lines 754-804: the per-card for loop.  Before each card
the loop breaks once total_processed has reached max_applicants (lines
755-756).  pr accumulates processed_this_round. -/
def processCards (maxA : Nat) : List Card → ScanState → Nat → ScanState × Nat
  | [], s, pr => (s, pr)
  | c :: rest, s, pr =>
    if maxA ≤ s.totalProcessed then (s, pr)
    else
      let r := processCard1 c s
      processCards maxA rest r.1 (if r.2 then pr + 1 else pr)

/- recruiter.py lines 747-825: one iteration of the scan-and-extract
while loop.  The card list is re-fetched each round (the environment
maps the round ordinal to the cards visible then).  After the for loop,
consecutive_no_progress is reset to 0 when processed_this_round > 0 and
incremented otherwise (lines 806-809), then the list is scrolled by the
fixed 200px increment and scroll_position advanced (lines 812-813).
Every page interaction inside the round body happens inside a handler
(the per-card try at 757-804 or a helper that catches Exception), so
the round-level except arms at lines 819-825 are unreachable and the
bookkeeping always runs. -/
def scanRound (rounds : Nat → List Card) (maxA i : Nat) (s : ScanState) : ScanState :=
  let r := processCards maxA (rounds i) s 0
  let s2 :=
    if 0 < r.2 then { r.1 with consecutiveNoProgress := 0 }
    else { r.1 with consecutiveNoProgress := r.1.consecutiveNoProgress + 1 }
  { s2 with scrollPosition := s2.scrollPosition + 200 }

/- recruiter.py line 747: while total_processed < max_applicants and
consecutive_no_progress < max_no_progress, with max_no_progress = 50
(line 728). -/
def scanGuard (maxA : Nat) (s : ScanState) : Prop :=
  s.totalProcessed < maxA ∧ s.consecutiveNoProgress < 50

instance (maxA : Nat) (s : ScanState) : Decidable (scanGuard maxA s) :=
  inferInstanceAs (Decidable (_ ∧ _))

/- n guarded iterations of the scan loop from the initial state; once
the guard fails the state is left unchanged, so for n large enough this
is exactly the state in which the while loop exits. -/
def scanSteps (rounds : Nat → List Card) (maxA : Nat) : Nat → ScanState
  | 0 => scanInit
  | n + 1 =>
    let s := scanSteps rounds maxA n
    if scanGuard maxA s then scanRound rounds maxA n s else s

/- The loop exit state.  Each guarded round strictly decreases the
measure (maxA - totalProcessed) * 51 + (50 - consecutiveNoProgress)
(proved below), so the guard has failed by iteration
51 * maxA + 51 and the state is stable from then on. -/
def scanFinal (rounds : Nat → List Card) (maxA : Nat) : ScanState :=
  scanSteps rounds maxA (51 * maxA + 51)

/- Outcome of one iteration of the bulk-expand loop body as driven by
the page: either find_and_click_load_more succeeded (count is what
get_applicant_cards would report, consulted only on every tenth click,
lines 663-667), or it failed and after the fallback scroll the card
count measured at line 675 is count. -/
inductive BulkOutcome
  | click (count : Nat)
  | scroll (count : Nat)
deriving DecidableEq

/- Loop-scoped state of the bulk-expand phase (recruiter.py lines
653-656): load_more_clicks, consecutive_failures, last_count. -/
structure BulkState where
  clicks : Nat
  failures : Nat
  lastCount : Nat
deriving DecidableEq

/- recruiter.py line 658: while load_more_clicks < max_load_clicks and
consecutive_failures < 10, with max_load_clicks = 500 (line 654). -/
def bulkGuard (s : BulkState) : Prop := s.clicks < 500 ∧ s.failures < 10

instance (s : BulkState) : Decidable (bulkGuard s) :=
  inferInstanceAs (Decidable (_ ∧ _))

/- recruiter.py lines 659-684: one iteration of the bulk-expand loop.
On a successful click: clicks + 1, failure streak reset, and last_count
refreshed from the page only when the new click total is a multiple of
10.  On a failed click: scroll, re-measure; growth over last_count
resets the streak and records the new count, otherwise the streak is
incremented.  Note that no branch consults max_applicants: the loop is
driven purely by the click budget and the failure streak. -/
def bulkStep (env : Nat → BulkOutcome) (i : Nat) (s : BulkState) : BulkState :=
  match env i with
  | BulkOutcome.click c =>
    let clicks := s.clicks + 1
    { clicks := clicks, failures := 0,
      lastCount := if clicks % 10 = 0 then c else s.lastCount }
  | BulkOutcome.scroll c =>
    if s.lastCount < c then { clicks := s.clicks, failures := 0, lastCount := c }
    else { s with failures := s.failures + 1 }

def bulkSteps (env : Nat → BulkOutcome) (s0 : BulkState) : Nat → BulkState
  | 0 => s0
  | n + 1 =>
    let s := bulkSteps env s0 n
    if bulkGuard s then bulkStep env n s else s

/- recruiter.py line 399: the landing check accepts the post-navigation
location iff it contains "hiring" or contains "applicants" (the code
returns the access error when both substrings are absent). -/
def landedOk (url : String) : Bool :=
  strContains url "hiring" || strContains url "applicants"

/- Environment of one get_applicants_with_contact run: the location
observed after navigation (the source re-reads driver.current_url a few
times without re-navigating; the location is modeled as stable for the
run), the card counts observed by the initial load check at lines
633-641 (the second count is consulted only when the first is zero),
the bulk-expand loop driver and the scan-loop driver.  The bulk phase
(lines 651-688) mutates only load_more_clicks, consecutive_failures and
last_count, none of which flow into the returned dict, so the returned
value does not depend on the bulk field; the termination behavior of
that phase is analyzed separately through bulkSteps. -/
structure RunEnv where
  currentUrl : String
  initCount1 : Nat
  initCount2 : Nat
  bulk : Nat → BulkOutcome
  rounds : Nat → List Card

/- The structured values get_applicants_with_contact can return
(recruiter.py lines 400-405, 644-649, 834-840). -/
inductive RunResult
  | accessDenied (message job_id current_url : String)
  | noApplicantsFound (message job_id current_url : String)
  | ok (job_id : String) (total_processed phones_found emails_found : Nat)
      (applicants : List Applicant)
deriving DecidableEq

def resultItems : RunResult → List Applicant
  | RunResult.ok _ _ _ _ l => l
  | _ => []

/- recruiter.py lines 831-832: sum(1 for a in list if a.get(field)),
counting Python-truthy values. -/
def countTruthy (f : Applicant → Option String) (l : List Applicant) : Nat :=
  (l.filter (fun a => truthy (f a))).length

/- recruiter.py lines 357-843, get_applicants_with_contact, as a
function of the run environment.  Order of effects: navigation and the
landing check (lines 393-405); the initial card-count check with one
extended retry (lines 633-649); the bulk-expand phase (no data flow
into the result, see RunEnv); scroll back to top (no data flow); the
scan-and-extract loop (lines 747-825); the summary dict (lines
834-840), whose total_processed field is the length of the collected
list.  The delay_seconds and rating_filter arguments influence only
pacing and the navigation URL, both absorbed into the environment. -/
def get_applicants_with_contact (env : RunEnv) (job_id : String) (maxA : Nat) :
    RunResult :=
  if ¬ landedOk env.currentUrl then
    RunResult.accessDenied
      "Could not access applicant list. Make sure you have Recruiter/Hiring Manager access."
      job_id env.currentUrl
  else
    let ic := if env.initCount1 = 0 then env.initCount2 else env.initCount1
    if ic = 0 then
      RunResult.noApplicantsFound
        "No applicants found. Page may not have loaded properly or job has no applicants."
        job_id env.currentUrl
    else
      let s := scanFinal env.rounds maxA
      RunResult.ok job_id s.applicants.length
        (countTruthy (fun a => a.phone) s.applicants)
        (countTruthy (fun a => a.email) s.applicants)
        s.applicants

/- One element yielded by the Verified-profile XPath query inside
get_job_applicants (recruiter.py lines 74-99): whether reading its
aria-label raises a transient exception, and the aria-label value. -/
structure NameElem where
  ariaRaises : Bool
  aria : Option String
deriving DecidableEq

structure JApplicant where
  name : String
  profile_url : Option String
  headline : Option String
  location : Option String
deriving DecidableEq

/- recruiter.py lines 74-99, extract_current_applicants: for each
element, a transient exception skips it; an absent or empty aria-label
or one without the Verified-profile marker skips it; an empty or
already-seen name skips it; otherwise the name is added to seen_names
and a record with only the name filled is collected.  Returns the new
records and the grown seen set. -/
def extract_current_applicants :
    List NameElem → List String → List JApplicant × List String
  | [], seen => ([], seen)
  | e :: rest, seen =>
    if e.ariaRaises then extract_current_applicants rest seen
    else
      match e.aria with
      | none => extract_current_applicants rest seen
      | some a =>
        if strContains a ", Verified profile" then
          let name := cardName a
          if name = "" ∨ name ∈ seen then extract_current_applicants rest seen
          else
            let r := extract_current_applicants rest (seen ++ [name])
            (⟨name, none, none, none⟩ :: r.1, r.2)
        else extract_current_applicants rest seen

/- One iteration of the Load-more loop of get_job_applicants as driven
by the page: whether find_and_click_load_more succeeded, and, when it
did, the elements yielded by the follow-up extraction pass. -/
structure GjaRound where
  clickOk : Bool
  elems : List NameElem

structure GjaEnv where
  currentUrl : String
  initialElems : List NameElem
  rounds : Nat → GjaRound

/- Loop state of get_job_applicants (lines 54-55, 129-131): the
collected applicants, seen_names, load_more_clicks and
consecutive_no_new. -/
structure GjaState where
  applicants : List JApplicant
  seen : List String
  clicks : Nat
  cnn : Nat

/- recruiter.py lines 133-154: while len(applicants) < max_applicants
and load_more_clicks < max_clicks: a failed click breaks; a successful
click increments the click total, extends the collection with the new
extraction pass, and either increments consecutive_no_new (breaking at
5) or resets it.  Every continuing iteration increments clicks, so the
round environment is indexed by the click total and the fuel argument
(called with max_clicks + 1) never runs out before the guard fails. -/
def gjaLoop (env : GjaEnv) (maxA maxClicks : Nat) : Nat → GjaState → GjaState
  | 0, s => s
  | fuel + 1, s =>
    if s.applicants.length < maxA ∧ s.clicks < maxClicks then
      let r := env.rounds s.clicks
      if r.clickOk then
        let e := extract_current_applicants r.elems s.seen
        let s1 : GjaState :=
          { applicants := s.applicants ++ e.1, seen := e.2, clicks := s.clicks + 1,
            cnn := if e.1.isEmpty then s.cnn + 1 else 0 }
        if e.1.isEmpty ∧ 5 ≤ s.cnn + 1 then s1 else gjaLoop env maxA maxClicks fuel s1
      else s
    else s

inductive GjaResult
  | accessDenied (message job_id current_url : String)
  | ok (job_id : String) (total_found : Nat) (applicants : List JApplicant)

def gjaItems : GjaResult → List JApplicant
  | GjaResult.ok _ _ l => l
  | _ => []

/- recruiter.py lines 38-163, get_job_applicants: the landing check
(lines 64-71, same substring condition), the initial extraction pass
(line 124), the Load-more loop with max_clicks = max_applicants / 5 + 10
(line 130), and the final trim applicants[:max_applicants] (line 157)
before the summary dict is built. -/
def get_job_applicants (env : GjaEnv) (job_id : String) (maxA : Nat) : GjaResult :=
  if ¬ landedOk env.currentUrl then
    GjaResult.accessDenied
      "Could not access applicant list. Make sure you have Recruiter/Hiring Manager access to this job."
      job_id env.currentUrl
  else
    let e := extract_current_applicants env.initialElems []
    let maxClicks := maxA / 5 + 10
    let s := gjaLoop env maxA maxClicks (maxClicks + 1) ⟨e.1, e.2, 0, 0⟩
    let final := s.applicants.take maxA
    GjaResult.ok job_id final.length final

/- Characterization of one card step: the card is skipped entirely, or
its key is inserted but the stale click loses the item, or the key is
inserted and the item appended with the processed counter bumped. -/
theorem processCard1_cases (c : Card) (s : ScanState) :
    processCard1 c s = (s, false) ∨
    (c.clickRaises = true ∧ ∃ nm, nm ∉ s.processedNames ∧ nm ≠ "" ∧
      processCard1 c s = ({ s with processedNames := s.processedNames ++ [nm] }, false)) ∨
    (∃ nm item, nm ∉ s.processedNames ∧ nm ≠ "" ∧
      processCard1 c s =
        ({ s with processedNames := s.processedNames ++ [nm],
                  applicants := s.applicants ++ [item],
                  totalProcessed := s.totalProcessed + 1 }, true)) := by
  unfold processCard1
  cases hA : c.ariaRaises with
  | true => left; simp
  | false =>
    cases hAr : c.aria with
    | none => left; simp
    | some a =>
      by_cases hc : strContains a ", Verified profile" = true
      · by_cases hn : cardName a = "" ∨ cardName a ∈ s.processedNames
        · left; simp [hc, hn]
        · push_neg at hn
          cases hCr : c.clickRaises with
          | true =>
            right; left
            refine ⟨rfl, cardName a, hn.2, hn.1, ?_⟩
            simp [hc, hn.1, hn.2]
          | false =>
            right; right
            refine ⟨cardName a, ?_, hn.2, hn.1, ?_⟩
            · exact
                { name :=
                    if truthy (extract_applicant_details c.panel).name then
                      (extract_applicant_details c.panel).name
                    else some (cardName a),
                  headline := (extract_applicant_details c.panel).headline,
                  location := (extract_applicant_details c.panel).location,
                  profile_url := (extract_applicant_details c.panel).profile_url,
                  phone := (click_contact_and_extract c.contact).phone,
                  email := (click_contact_and_extract c.contact).email }
            · simp [hc, hn.1, hn.2]
      · left; simp [hc]

/- Unfolding equations for the per-card for loop. -/
theorem processCards_stop (maxA : Nat) (c : Card) (rest : List Card) (s : ScanState)
    (pr : Nat) (h : maxA ≤ s.totalProcessed) :
    processCards maxA (c :: rest) s pr = (s, pr) := by
  simp only [processCards]
  rw [if_pos h]

theorem processCards_cons (maxA : Nat) (c : Card) (rest : List Card) (s : ScanState)
    (pr : Nat) (h : ¬ maxA ≤ s.totalProcessed) :
    processCards maxA (c :: rest) s pr =
      processCards maxA rest (processCard1 c s).1
        (if (processCard1 c s).2 then pr + 1 else pr) := by
  simp only [processCards]
  rw [if_neg h]

/- Bookkeeping facts about the per-card for loop: the no-progress
counter is untouched; the processed counter grows exactly by the
processed_this_round increments; the counter never exceeds
max_applicants; appends track the counter one to one; the key list
grows at least as fast as the item list. -/
theorem processCards_spec (maxA : Nat) (cards : List Card) (s : ScanState) (pr : Nat) :
    (processCards maxA cards s pr).1.consecutiveNoProgress = s.consecutiveNoProgress ∧
    (processCards maxA cards s pr).1.totalProcessed + pr =
      (processCards maxA cards s pr).2 + s.totalProcessed ∧
    pr ≤ (processCards maxA cards s pr).2 ∧
    s.totalProcessed ≤ (processCards maxA cards s pr).1.totalProcessed ∧
    (s.totalProcessed ≤ maxA → (processCards maxA cards s pr).1.totalProcessed ≤ maxA) ∧
    (processCards maxA cards s pr).1.applicants.length + s.totalProcessed =
      s.applicants.length + (processCards maxA cards s pr).1.totalProcessed ∧
    (processCards maxA cards s pr).1.applicants.length + s.processedNames.length ≤
      s.applicants.length + (processCards maxA cards s pr).1.processedNames.length := by
  induction cards generalizing s pr with
  | nil =>
    exact ⟨rfl, Nat.add_comm _ _, le_refl _, le_refl _, fun h => h, rfl, le_refl _⟩
  | cons c rest ih =>
    by_cases hstop : maxA ≤ s.totalProcessed
    · rw [processCards_stop maxA c rest s pr hstop]
      exact ⟨rfl, Nat.add_comm _ _, le_refl _, le_refl _, fun h => h, rfl, le_refl _⟩
    · rw [processCards_cons maxA c rest s pr hstop]
      rcases processCard1_cases c s with h | ⟨hcr, nm, hmem, hne, h⟩ |
        ⟨nm, item, hmem, hne, h⟩
      · rw [h]
        simpa using ih s pr
      · rw [h]
        have H := ih { s with processedNames := s.processedNames ++ [nm] } pr
        simp only [List.length_append, List.length_cons, List.length_nil] at H ⊢
        simp at H ⊢
        omega
      · rw [h]
        have H := ih { s with processedNames := s.processedNames ++ [nm],
                              applicants := s.applicants ++ [item],
                              totalProcessed := s.totalProcessed + 1 } (pr + 1)
        simp only [List.length_append, List.length_cons, List.length_nil] at H ⊢
        simp at H ⊢
        omega

/- Keys are inserted only under the not-seen check, so the key list
stays free of duplicates: each identity key enters processed_names at
most once per run. -/
theorem processCards_nodup (maxA : Nat) (cards : List Card) (s : ScanState) (pr : Nat)
    (h : s.processedNames.Nodup) :
    (processCards maxA cards s pr).1.processedNames.Nodup := by
  induction cards generalizing s pr with
  | nil => exact h
  | cons c rest ih =>
    by_cases hstop : maxA ≤ s.totalProcessed
    · rw [processCards_stop maxA c rest s pr hstop]
      exact h
    · rw [processCards_cons maxA c rest s pr hstop]
      rcases processCard1_cases c s with hc | ⟨_, nm, hmem, _, hc⟩ |
        ⟨nm, item, hmem, _, hc⟩
      · rw [hc]
        exact ih s pr h
      · rw [hc]
        refine ih _ pr ?_
        simp [List.nodup_append, h, hmem]
      · rw [hc]
        refine ih _ _ ?_
        simp [List.nodup_append, h, hmem]

/- When no card suffers the stale click between key insertion and item
append, items and inserted keys stay in one-to-one step. -/
theorem processCards_len_eq (maxA : Nat) (cards : List Card) (s : ScanState) (pr : Nat)
    (hall : ∀ c ∈ cards, c.clickRaises = false)
    (h : s.applicants.length = s.processedNames.length) :
    (processCards maxA cards s pr).1.applicants.length =
      (processCards maxA cards s pr).1.processedNames.length := by
  induction cards generalizing s pr with
  | nil => exact h
  | cons c rest ih =>
    have hc0 : c.clickRaises = false := hall c (List.mem_cons_self c rest)
    have hrest : ∀ x ∈ rest, x.clickRaises = false :=
      fun x hx => hall x (List.mem_cons_of_mem c hx)
    by_cases hstop : maxA ≤ s.totalProcessed
    · rw [processCards_stop maxA c rest s pr hstop]
      exact h
    · rw [processCards_cons maxA c rest s pr hstop]
      rcases processCard1_cases c s with hc | ⟨hcr, nm, hmem, _, hc⟩ |
        ⟨nm, item, hmem, _, hc⟩
      · rw [hc]
        exact ih _ _ hrest h
      · rw [hc0] at hcr
        exact absurd hcr (by simp)
      · rw [hc]
        refine ih _ _ hrest ?_
        simp [h]

/- The end-of-round bookkeeping touches only consecutive_no_progress
and scroll_position; the collections and the counter come straight from
the card loop. -/
theorem scanRound_proj (rounds : Nat → List Card) (maxA i : Nat) (s : ScanState) :
    (scanRound rounds maxA i s).applicants =
      (processCards maxA (rounds i) s 0).1.applicants ∧
    (scanRound rounds maxA i s).processedNames =
      (processCards maxA (rounds i) s 0).1.processedNames ∧
    (scanRound rounds maxA i s).totalProcessed =
      (processCards maxA (rounds i) s 0).1.totalProcessed := by
  simp only [scanRound]
  by_cases hp : 0 < (processCards maxA (rounds i) s 0).2 <;> simp [hp]

/- The end-of-round update of the no-progress counter as one equation:
zeroed when the round processed at least one card, incremented
otherwise. -/
theorem scanRound_cnp (rounds : Nat → List Card) (maxA i : Nat) (s : ScanState) :
    (scanRound rounds maxA i s).consecutiveNoProgress =
      if 0 < (processCards maxA (rounds i) s 0).2 then 0
      else s.consecutiveNoProgress + 1 := by
  have S1 := (processCards_spec maxA (rounds i) s 0).1
  simp only [scanRound]
  by_cases hp : 0 < (processCards maxA (rounds i) s 0).2
  · simp [hp]
  · simp [hp, S1]

/- Arithmetic shape of one round: the processed counter never
decreases and never passes max_applicants, and the no-progress counter
is zeroed exactly when the round processed something, incremented
otherwise. -/
theorem scanRound_spec (rounds : Nat → List Card) (maxA i : Nat) (s : ScanState) :
    s.totalProcessed ≤ (scanRound rounds maxA i s).totalProcessed ∧
    (s.totalProcessed ≤ maxA → (scanRound rounds maxA i s).totalProcessed ≤ maxA) ∧
    ((scanRound rounds maxA i s).consecutiveNoProgress = 0 ∨
      (scanRound rounds maxA i s).consecutiveNoProgress = s.consecutiveNoProgress + 1) ∧
    ((scanRound rounds maxA i s).consecutiveNoProgress = 0 ↔
      s.totalProcessed < (scanRound rounds maxA i s).totalProcessed) ∧
    ((scanRound rounds maxA i s).totalProcessed = s.totalProcessed →
      (scanRound rounds maxA i s).consecutiveNoProgress = s.consecutiveNoProgress + 1) := by
  obtain ⟨S1, S2, S3, S4, S5, S6, S7⟩ := processCards_spec maxA (rounds i) s 0
  obtain ⟨P1, P2, P3⟩ := scanRound_proj rounds maxA i s
  have C := scanRound_cnp rounds maxA i s
  rw [P3, C]
  by_cases hp : 0 < (processCards maxA (rounds i) s 0).2
  · rw [if_pos hp]
    refine ⟨by omega, fun h => S5 h, Or.inl rfl, ?_, fun h => by omega⟩
    constructor <;> intro _ <;> omega
  · rw [if_neg hp]
    refine ⟨by omega, fun h => S5 h, Or.inr rfl, ?_, fun _ => rfl⟩
    constructor <;> intro _ <;> omega

/- Unfolding equations for the guarded iteration of the scan loop. -/
theorem scanSteps_succ_round (rounds : Nat → List Card) (maxA n : Nat)
    (h : scanGuard maxA (scanSteps rounds maxA n)) :
    scanSteps rounds maxA (n + 1) = scanRound rounds maxA n (scanSteps rounds maxA n) := by
  simp only [scanSteps]
  rw [if_pos h]

theorem scanSteps_succ_stay (rounds : Nat → List Card) (maxA n : Nat)
    (h : ¬ scanGuard maxA (scanSteps rounds maxA n)) :
    scanSteps rounds maxA (n + 1) = scanSteps rounds maxA n := by
  simp only [scanSteps]
  rw [if_neg h]

/- Run-scoped invariants of the scan loop state, by induction over the
guarded iteration: the processed counter stays within max_applicants,
the no-progress counter within its 50 limit, the item list length
equals the processed counter, the key list has no duplicates, and items
never outnumber inserted keys. -/
theorem scanSteps_inv (rounds : Nat → List Card) (maxA n : Nat) :
    (scanSteps rounds maxA n).totalProcessed ≤ maxA ∧
    (scanSteps rounds maxA n).consecutiveNoProgress ≤ 50 ∧
    (scanSteps rounds maxA n).applicants.length = (scanSteps rounds maxA n).totalProcessed ∧
    (scanSteps rounds maxA n).processedNames.Nodup ∧
    (scanSteps rounds maxA n).applicants.length ≤
      (scanSteps rounds maxA n).processedNames.length := by
  induction n with
  | zero => simp [scanSteps, scanInit]
  | succ n ih =>
    obtain ⟨I1, I2, I3, I4, I5⟩ := ih
    by_cases hg : scanGuard maxA (scanSteps rounds maxA n)
    · rw [scanSteps_succ_round rounds maxA n hg]
      obtain ⟨P1, P2, P3⟩ := scanRound_proj rounds maxA n (scanSteps rounds maxA n)
      obtain ⟨R1, R2, R3, R4, R5⟩ := scanRound_spec rounds maxA n (scanSteps rounds maxA n)
      obtain ⟨Q1, Q2, Q3, Q4, Q5, Q6, Q7⟩ :=
        processCards_spec maxA (rounds n) (scanSteps rounds maxA n) 0
      refine ⟨R2 I1, ?_, ?_, ?_, ?_⟩
      · rcases R3 with h | h
        · omega
        · have := hg.2
          omega
      · rw [P1, P3]
        omega
      · rw [P2]
        exact processCards_nodup _ _ _ _ I4
      · rw [P1, P2]
        omega
    · rw [scanSteps_succ_stay rounds maxA n hg]
      exact ⟨I1, I2, I3, I4, I5⟩

/- Under the no-stale-click hypothesis the one-to-one step between
items and inserted keys is preserved through every round. -/
theorem scanSteps_len_eq (rounds : Nat → List Card) (maxA : Nat)
    (hall : ∀ i c, c ∈ rounds i → c.clickRaises = false) (n : Nat) :
    (scanSteps rounds maxA n).applicants.length =
      (scanSteps rounds maxA n).processedNames.length := by
  induction n with
  | zero => simp [scanSteps, scanInit]
  | succ n ih =>
    by_cases hg : scanGuard maxA (scanSteps rounds maxA n)
    · rw [scanSteps_succ_round rounds maxA n hg]
      obtain ⟨P1, P2, _⟩ := scanRound_proj rounds maxA n (scanSteps rounds maxA n)
      rw [P1, P2]
      exact processCards_len_eq _ _ _ _ (fun c hc => hall n c hc) ih
    · rw [scanSteps_succ_stay rounds maxA n hg]
      exact ih

/- Termination measure for the scan loop. -/
def scanMeasure (maxA : Nat) (s : ScanState) : Nat :=
  (maxA - s.totalProcessed) * 51 + (50 - s.consecutiveNoProgress)

/- Every guarded round strictly decreases the measure: a productive
round moves the processed counter up by at least one (worth 51) while
the no-progress counter costs at most 50; an unproductive round leaves
the counter and decrements the slack by exactly one. -/
theorem scanRound_measure (rounds : Nat → List Card) (maxA i : Nat) (s : ScanState)
    (hg : scanGuard maxA s) (hle : s.totalProcessed ≤ maxA)
    (hcnp : s.consecutiveNoProgress ≤ 50) :
    scanMeasure maxA (scanRound rounds maxA i s) < scanMeasure maxA s := by
  obtain ⟨R1, R2, R3, R4, R5⟩ := scanRound_spec rounds maxA i s
  obtain ⟨hg1, hg2⟩ := hg
  have h2 := R2 hle
  unfold scanMeasure
  rcases R3 with h | h
  · have hlt := R4.mp h
    rw [h]
    omega
  · have : ¬ s.totalProcessed < (scanRound rounds maxA i s).totalProcessed := by
      intro hlt
      rw [(R4.mpr hlt)] at h
      omega
    have heq : (scanRound rounds maxA i s).totalProcessed = s.totalProcessed := by omega
    rw [h, heq]
    omega

/- While the guard still holds at step n, the measure has already paid
for every one of the n rounds taken so far. -/
theorem scanSteps_measure (rounds : Nat → List Card) (maxA : Nat) (n : Nat)
    (h : scanGuard maxA (scanSteps rounds maxA n)) :
    scanMeasure maxA (scanSteps rounds maxA n) + n ≤ scanMeasure maxA scanInit := by
  induction n with
  | zero => simp [scanSteps]
  | succ n ih =>
    by_cases hg : scanGuard maxA (scanSteps rounds maxA n)
    · have hdec : scanMeasure maxA (scanSteps rounds maxA (n + 1)) <
          scanMeasure maxA (scanSteps rounds maxA n) := by
        rw [scanSteps_succ_round rounds maxA n hg]
        obtain ⟨I1, I2, _⟩ := scanSteps_inv rounds maxA n
        exact scanRound_measure rounds maxA n (scanSteps rounds maxA n) hg I1 I2
      have := ih hg
      omega
    · rw [scanSteps_succ_stay rounds maxA n hg] at h
      exact absurd h hg

/- The scan loop guard has failed by iteration 51 * maxA + 51,
whatever the page does: bounded termination of the scan phase. -/
theorem scanSteps_halts (rounds : Nat → List Card) (maxA : Nat) :
    ¬ scanGuard maxA (scanSteps rounds maxA (51 * maxA + 51)) := by
  intro h
  have := scanSteps_measure rounds maxA (51 * maxA + 51) h
  unfold scanMeasure scanInit at this
  simp at this
  omega

/- Once the guard has failed the state never changes again. -/
theorem scanSteps_stable (rounds : Nat → List Card) (maxA n : Nat)
    (h : ¬ scanGuard maxA (scanSteps rounds maxA n)) :
    ∀ m, scanSteps rounds maxA (n + m) = scanSteps rounds maxA n := by
  intro m
  induction m with
  | zero => rfl
  | succ m ih =>
    have : ¬ scanGuard maxA (scanSteps rounds maxA (n + m)) := by
      rw [ih]
      exact h
    rw [show n + (m + 1) = (n + m) + 1 by omega, scanSteps_succ_stay rounds maxA (n + m) this, ih]

/- recruiter.py lines 653-656: the bulk-expand loop starts with zero
clicks, a clean failure streak, and last_count measured from the
initial card check. -/
def bulkInit (k : Nat) : BulkState := ⟨0, 0, k⟩

theorem bulkSteps_succ_round (env : Nat → BulkOutcome) (s0 : BulkState) (n : Nat)
    (h : bulkGuard (bulkSteps env s0 n)) :
    bulkSteps env s0 (n + 1) = bulkStep env n (bulkSteps env s0 n) := by
  simp only [bulkSteps]
  rw [if_pos h]

theorem bulkSteps_succ_stay (env : Nat → BulkOutcome) (s0 : BulkState) (n : Nat)
    (h : ¬ bulkGuard (bulkSteps env s0 n)) :
    bulkSteps env s0 (n + 1) = bulkSteps env s0 n := by
  simp only [bulkSteps]
  rw [if_neg h]

/- The two loop counters of the bulk-expand phase never overshoot
their budgets: the click total stays at most 500 and the failure
streak at most 10, since the loop only runs while both are strictly
below and each round adds at most one. -/
theorem bulkSteps_bounds (env : Nat → BulkOutcome) (k n : Nat) :
    (bulkSteps env (bulkInit k) n).clicks ≤ 500 ∧
    (bulkSteps env (bulkInit k) n).failures ≤ 10 := by
  induction n with
  | zero => simp [bulkSteps, bulkInit]
  | succ n ih =>
    by_cases hg : bulkGuard (bulkSteps env (bulkInit k) n)
    · rw [bulkSteps_succ_round env (bulkInit k) n hg]
      obtain ⟨hg1, hg2⟩ := hg
      unfold bulkStep
      cases env n with
      | click c => simp; omega
      | scroll c =>
        by_cases hlt : (bulkSteps env (bulkInit k) n).lastCount < c
        · simp [hlt]; omega
        · simp [hlt]; omega
    · rw [bulkSteps_succ_stay env (bulkInit k) n hg]
      exact ih

theorem bulkGuard_mk (a b c : Nat) (h1 : a < 500) (h2 : b < 10) :
    bulkGuard ⟨a, b, c⟩ := ⟨h1, h2⟩

/- A page that never yields items: the Load-more control is never
found and every scroll re-measurement stays at or below the initial
count.  The failure streak then grows by one every round while
last_count never moves, so the loop has exited by round 10. -/
theorem bulkSteps_no_yield (env : Nat → BulkOutcome) (k : Nat)
    (henv : ∀ i, ∃ c, env i = BulkOutcome.scroll c ∧ c ≤ k) :
    ∀ n, n ≤ 10 → bulkSteps env (bulkInit k) n = ⟨0, n, k⟩ := by
  intro n
  induction n with
  | zero => intro _; rfl
  | succ n ih =>
    intro hle
    have hn : n ≤ 10 := by omega
    have hs := ih hn
    have hg : bulkGuard (bulkSteps env (bulkInit k) n) := by
      rw [hs]
      exact bulkGuard_mk 0 n k (by omega) (by omega)
    rw [bulkSteps_succ_round env (bulkInit k) n hg, hs]
    obtain ⟨c, hc, hck⟩ := henv n
    unfold bulkStep
    rw [hc]
    dsimp only
    rw [if_neg (show ¬ k < c by omega)]

/- An adversarial page with no Load-more control whose measured card
count grows on every scroll: the streak is reset every round and the
click total never moves, so the guard never fails. -/
def growEnv : Nat → BulkOutcome := fun i => BulkOutcome.scroll (i + 2)

theorem growEnv_state (n : Nat) : bulkSteps growEnv (bulkInit 1) n = ⟨0, 0, n + 1⟩ := by
  induction n with
  | zero => rfl
  | succ n ih =>
    have hg : bulkGuard (bulkSteps growEnv (bulkInit 1) n) := by
      rw [ih]
      exact bulkGuard_mk 0 0 (n + 1) (by omega) (by omega)
    rw [bulkSteps_succ_round growEnv (bulkInit 1) n hg, ih]
    unfold bulkStep growEnv
    dsimp only
    rw [if_pos (show n + 1 < n + 2 by omega)]

/- A page whose Load-more click always succeeds while the card count
sticks at 5: the loop keeps clicking until the 500-click budget is
spent, no matter how many items are already available. -/
def clickEnvC : Nat → BulkOutcome := fun _ => BulkOutcome.click 5

theorem clickEnvC_state (n : Nat) (h : n ≤ 500) :
    bulkSteps clickEnvC (bulkInit 5) n = ⟨n, 0, 5⟩ := by
  induction n with
  | zero => rfl
  | succ n ih =>
    have hn : n ≤ 500 := by omega
    have hs := ih hn
    have hg : bulkGuard (bulkSteps clickEnvC (bulkInit 5) n) := by
      rw [hs]
      exact bulkGuard_mk n 0 5 (by omega) (by omega)
    rw [bulkSteps_succ_round clickEnvC (bulkInit 5) n hg, hs]
    unfold bulkStep clickEnvC
    dsimp only
    simp [ite_self]

/- Concrete environments used to instantiate the claim theorems. -/
def emptyRounds : Nat → List Card := fun _ => []

def constScrollEnv : Nat → BulkOutcome := fun _ => BulkOutcome.scroll 1

def stalePanel : Panel := ⟨[], [], LinkRes.notFound⟩

def staleContact : ContactPanel := ⟨[], false, [], []⟩

/- A card whose aria-label is fine but whose scroll-and-click JS raises
a transient exception after the key has been inserted. -/
def staleCard : Card :=
  { ariaRaises := false, aria := some "Bob, Verified profile", clickRaises := true,
    panel := stalePanel, contact := staleContact }

def c1Rounds : Nat → List Card := fun i => if i = 0 then [staleCard] else []

/- The append branch of one card step in closed form, for a fresh,
readable, clickable card. -/
theorem processCard1_append (c : Card) (s : ScanState) (a : String)
    (h2 : c.ariaRaises = false) (h3 : c.aria = some a)
    (h4 : strContains a ", Verified profile" = true) (h5 : cardName a ≠ "")
    (h6 : cardName a ∉ s.processedNames) (h7 : c.clickRaises = false) :
    processCard1 c s =
      ({ s with processedNames := s.processedNames ++ [cardName a],
                applicants := s.applicants ++
                  [{ name := if truthy (extract_applicant_details c.panel).name then
                        (extract_applicant_details c.panel).name
                      else some (cardName a),
                     headline := (extract_applicant_details c.panel).headline,
                     location := (extract_applicant_details c.panel).location,
                     profile_url := (extract_applicant_details c.panel).profile_url,
                     phone := (click_contact_and_extract c.contact).phone,
                     email := (click_contact_and_extract c.contact).email }],
                totalProcessed := s.totalProcessed + 1 }, true) := by
  unfold processCard1
  rw [h2, if_neg Bool.false_ne_true, h3]
  dsimp only
  rw [if_pos h4, if_neg (not_or.mpr ⟨h5, h6⟩), h7, if_neg Bool.false_ne_true]

set_option maxRecDepth 100000 in
/-- C1 counterexample: one run over a page that shows a single fresh
card whose scroll-and-click raises a transient stale-element exception
right after the identity key was inserted.  The run inserts one key
into processed_names but appends no item, so the item count differs
from the number of inserted keys, contrary to the claim. -/
theorem C1_counterexample :
    (scanFinal c1Rounds 1).processedNames.length = 1 ∧
    (scanFinal c1Rounds 1).applicants.length = 0 ∧
    ¬ (scanFinal c1Rounds 1).applicants.length =
        (scanFinal c1Rounds 1).processedNames.length := by
  decide

/-- C1 (amended): in every harvest run in which no transient
stale-element failure strikes between key insertion and item append
(no card click raises), each identity key is inserted into
processed_names at most once, and the number of items in the returned
applicants list equals the number of identity keys inserted — so an
item discovered twice across overlapping discovery passes appears
exactly once in the final result. -/
theorem C1_dedup (rounds : Nat → List Card) (maxA : Nat)
    (h : ∀ i c, c ∈ rounds i → c.clickRaises = false) :
    (scanFinal rounds maxA).processedNames.Nodup ∧
    (scanFinal rounds maxA).applicants.length =
      (scanFinal rounds maxA).processedNames.length :=
  ⟨(scanSteps_inv rounds maxA _).2.2.2.1, scanSteps_len_eq rounds maxA h _⟩

theorem C1_dedup_witness :
    (scanFinal emptyRounds 1).processedNames.Nodup ∧
    (scanFinal emptyRounds 1).applicants.length =
      (scanFinal emptyRounds 1).processedNames.length :=
  C1_dedup emptyRounds 1 (fun _ c hc => absurd hc (List.not_mem_nil c))

/-- C2 counterexample: an adversarial page driver that never exposes a
Load-more control but reports a strictly larger card count after every
fallback scroll keeps the bulk-expand loop guard true forever — the
loop does not complete after boundedly many iterations for a driver
that keeps yielding new items. -/
theorem C2_counterexample :
    ¬ ∃ n, ¬ bulkGuard (bulkSteps growEnv (bulkInit 1) n) := by
  rintro ⟨n, hn⟩
  rw [growEnv_state n] at hn
  exact hn (bulkGuard_mk 0 0 (n + 1) (by omega) (by omega))

/-- C2 (amended): the scan-and-extract loop terminates within
51 * maxItems + 51 rounds for every page driver; the bulk-expand loop
terminates (within 10 rounds) for every driver that never yields items,
that is, one whose Load-more lookup always fails and whose scroll
re-measurements never exceed the initial count.  (An adversarial driver
that keeps reporting growth on scroll defeats the bulk-expand bound,
see the counterexample.) -/
theorem C2_bounded_termination (rounds : Nat → List Card) (maxA : Nat)
    (env : Nat → BulkOutcome) (k : Nat)
    (henv : ∀ i, ∃ c, env i = BulkOutcome.scroll c ∧ c ≤ k) :
    ¬ scanGuard maxA (scanSteps rounds maxA (51 * maxA + 51)) ∧
    ¬ bulkGuard (bulkSteps env (bulkInit k) 10) := by
  refine ⟨scanSteps_halts rounds maxA, fun hg => ?_⟩
  rw [bulkSteps_no_yield env k henv 10 (le_refl _)] at hg
  exact absurd hg.2 (by simp)

theorem C2_bounded_termination_witness :
    ¬ scanGuard 1 (scanSteps emptyRounds 1 102) ∧
    ¬ bulkGuard (bulkSteps constScrollEnv (bulkInit 1) 10) :=
  C2_bounded_termination emptyRounds 1 constScrollEnv 1
    (fun _ => ⟨1, rfl, le_refl 1⟩)

/-- C3 counterexample: with 5 cards already loaded and a caller target
of maxItems = 1 already met, the bulk-expand loop still performs a load
on its first round and keeps running — it only stops when the 500-click
budget is spent.  The loaded count and the target play no part in its
guard, contrary to the loadedCount >= targetCount exit the claim
asserts. -/
theorem C3_counterexample :
    (bulkSteps clickEnvC (bulkInit 5) 1).clicks = 1 ∧
    bulkGuard (bulkSteps clickEnvC (bulkInit 5) 499) ∧
    ¬ bulkGuard (bulkSteps clickEnvC (bulkInit 5) 500) ∧
    (bulkSteps clickEnvC (bulkInit 5) 500).clicks = 500 := by
  refine ⟨?_, ?_, ?_, ?_⟩
  · rw [clickEnvC_state 1 (by omega)]
  · rw [clickEnvC_state 499 (by omega)]
    exact bulkGuard_mk 499 0 5 (by omega) (by omega)
  · rw [clickEnvC_state 500 (by omega)]
    intro hg
    exact absurd hg.1 (by decide)
  · rw [clickEnvC_state 500 (by omega)]

/-- C3 (amended): the bulk-expand loop of get_applicants_with_contact
terminates exactly when the attempt budget (500 clicks) is exhausted or
the consecutive-failure streak reaches its limit (10); the loaded item
count and the caller target maxItems play no part in its exit, and the
counters never overshoot their budgets. -/
theorem C3_bulk_exit_causes (env : Nat → BulkOutcome) (k n : Nat) :
    (bulkSteps env (bulkInit k) n).clicks ≤ 500 ∧
    (bulkSteps env (bulkInit k) n).failures ≤ 10 ∧
    (bulkGuard (bulkSteps env (bulkInit k) n) ∨
      (bulkSteps env (bulkInit k) n).clicks = 500 ∨
      (bulkSteps env (bulkInit k) n).failures = 10) := by
  obtain ⟨h1, h2⟩ := bulkSteps_bounds env k n
  refine ⟨h1, h2, ?_⟩
  by_cases hg : bulkGuard (bulkSteps env (bulkInit k) n)
  · exact Or.inl hg
  · right
    unfold bulkGuard at hg
    push_neg at hg
    omega

/-- C4: when the post-navigation location matches neither expected
substring ("hiring" or "applicants"), the run returns the
access_denied tagged error with the job id echoed, produces no items,
and the outcome is independent of everything the page would offer
afterwards (initial counts, bulk-expand driver, scan driver) — no List
Loader expansion or extraction work influences the result. -/
theorem C4_access_denied (env env2 : RunEnv) (job : String) (maxA : Nat)
    (h : landedOk env.currentUrl = false) (hsame : env2.currentUrl = env.currentUrl) :
    get_applicants_with_contact env job maxA =
      RunResult.accessDenied
        "Could not access applicant list. Make sure you have Recruiter/Hiring Manager access."
        job env.currentUrl ∧
    resultItems (get_applicants_with_contact env job maxA) = [] ∧
    get_applicants_with_contact env2 job maxA =
      get_applicants_with_contact env job maxA := by
  have he : ∀ e : RunEnv, landedOk e.currentUrl = false →
      get_applicants_with_contact e job maxA =
        RunResult.accessDenied
          "Could not access applicant list. Make sure you have Recruiter/Hiring Manager access."
          job e.currentUrl := by
    intro e hh
    unfold get_applicants_with_contact
    rw [if_pos (by simp [hh])]
  refine ⟨he env h, by rw [he env h]; rfl, ?_⟩
  rw [he env h, he env2 (by rw [hsame]; exact h), hsame]

def c4Env : RunEnv :=
  ⟨"https://www.linkedin.com/feed/", 0, 0, fun _ => BulkOutcome.scroll 0, emptyRounds⟩

def c4Env2 : RunEnv :=
  ⟨"https://www.linkedin.com/feed/", 7, 9, fun _ => BulkOutcome.click 3, c1Rounds⟩

theorem C4_access_denied_witness :
    landedOk c4Env.currentUrl = false ∧ c4Env2.currentUrl = c4Env.currentUrl ∧
    (get_applicants_with_contact c4Env "4325022456" 20 =
      RunResult.accessDenied
        "Could not access applicant list. Make sure you have Recruiter/Hiring Manager access."
        "4325022456" c4Env.currentUrl ∧
    resultItems (get_applicants_with_contact c4Env "4325022456" 20) = [] ∧
    get_applicants_with_contact c4Env2 "4325022456" 20 =
      get_applicants_with_contact c4Env "4325022456" 20) :=
  ⟨by decide, rfl, C4_access_denied c4Env c4Env2 "4325022456" 20 (by decide) rfl⟩

/-- C5: when the landing check passes but zero cards are visible both
at the initial check and after the extended settle wait, the run
returns the no_applicants_found tagged error echoing the job id,
produces no items, and the outcome is independent of the bulk-expand
and scan drivers — no expansion or extraction work influences the
result. -/
theorem C5_no_items (env env2 : RunEnv) (job : String) (maxA : Nat)
    (h : landedOk env.currentUrl = true)
    (h1 : env.initCount1 = 0) (h2 : env.initCount2 = 0)
    (g0 : env2.currentUrl = env.currentUrl)
    (g1 : env2.initCount1 = 0) (g2 : env2.initCount2 = 0) :
    get_applicants_with_contact env job maxA =
      RunResult.noApplicantsFound
        "No applicants found. Page may not have loaded properly or job has no applicants."
        job env.currentUrl ∧
    resultItems (get_applicants_with_contact env job maxA) = [] ∧
    get_applicants_with_contact env2 job maxA =
      get_applicants_with_contact env job maxA := by
  have he : ∀ e : RunEnv, landedOk e.currentUrl = true → e.initCount1 = 0 →
      e.initCount2 = 0 →
      get_applicants_with_contact e job maxA =
        RunResult.noApplicantsFound
          "No applicants found. Page may not have loaded properly or job has no applicants."
          job e.currentUrl := by
    intro e hh hh1 hh2
    unfold get_applicants_with_contact
    rw [if_neg (by simp [hh])]
    simp [hh1, hh2]
  refine ⟨he env h h1 h2, by rw [he env h h1 h2]; rfl, ?_⟩
  rw [he env h h1 h2, he env2 (by rw [g0]; exact h) g1 g2, g0]

def c5Env : RunEnv :=
  ⟨"https://www.linkedin.com/hiring/applicants/?jobId=4325022456", 0, 0,
    fun _ => BulkOutcome.scroll 0, emptyRounds⟩

def c5Env2 : RunEnv :=
  ⟨"https://www.linkedin.com/hiring/applicants/?jobId=4325022456", 0, 0,
    fun _ => BulkOutcome.click 3, c1Rounds⟩

theorem C5_no_items_witness :
    landedOk c5Env.currentUrl = true ∧ c5Env.initCount1 = 0 ∧ c5Env.initCount2 = 0 ∧
    (get_applicants_with_contact c5Env "4325022456" 20 =
      RunResult.noApplicantsFound
        "No applicants found. Page may not have loaded properly or job has no applicants."
        "4325022456" c5Env.currentUrl ∧
    resultItems (get_applicants_with_contact c5Env "4325022456" 20) = [] ∧
    get_applicants_with_contact c5Env2 "4325022456" 20 =
      get_applicants_with_contact c5Env "4325022456" 20) :=
  ⟨by decide, rfl, rfl,
    C5_no_items c5Env c5Env2 "4325022456" 20 (by decide) rfl rfl rfl rfl rfl⟩

/- The value each single strategy yields on its own in the three
fallback chains of the source, and the contributes-nothing predicates:
a strategy yields nothing when the element is missing, or when the
found element carries no usable value for that field (empty text for
the detail text chains; no tel:/mailto: href and no usable text for
the contact chains). -/
def textStratValue : StratRes → Option String
  | StratRes.notFound => none
  | StratRes.raised => none
  | StratRes.text s => if s = "" then none else some (strTrim s)

def yieldsNothing : StratRes → Bool
  | StratRes.notFound => true
  | StratRes.raised => false
  | StratRes.text s => s == ""

def phoneStratValue : ElemRes → Option String
  | ElemRes.notFound => none
  | ElemRes.raised => none
  | ElemRes.elem href txt =>
    match href with
    | some h =>
      if h ≠ "" ∧ strContains h "tel:" then some (strReplace h "tel:" "")
      else if txt ≠ "" then some (strTrim txt) else none
    | none => if txt ≠ "" then some (strTrim txt) else none

def phoneYieldsNothing : ElemRes → Bool
  | ElemRes.notFound => true
  | ElemRes.raised => false
  | ElemRes.elem href txt => phoneStratValue (ElemRes.elem href txt) == none

def emailStratValue : ElemRes → Option String
  | ElemRes.notFound => none
  | ElemRes.raised => none
  | ElemRes.elem href txt =>
    match href with
    | some h =>
      if h ≠ "" ∧ strContains h "mailto:" then some (strReplace h "mailto:" "")
      else if txt ≠ "" ∧ strContains txt "@" then some (strTrim txt) else none
    | none => if txt ≠ "" ∧ strContains txt "@" then some (strTrim txt) else none

def emailYieldsNothing : ElemRes → Bool
  | ElemRes.notFound => true
  | ElemRes.raised => false
  | ElemRes.elem href txt => emailStratValue (ElemRes.elem href txt) == none

/- A strategy that yields a value wins immediately: the chain stops
with exactly one strategy examined and that value stored. -/
theorem textChain_win (a : StratRes) (rest : List StratRes) (v : String)
    (h : textStratValue a = some v) :
    textChainEval (a :: rest) = ⟨some v, false, 1⟩ := by
  cases a with
  | notFound => simp [textStratValue] at h
  | raised => simp [textStratValue] at h
  | text s =>
    by_cases hs : s = ""
    · simp [textStratValue, hs] at h
    · simp [textStratValue, hs] at h
      simp [textChainEval, hs, h]

/- A strategy that yields nothing is skipped: the chain result is that
of the remaining strategies with one more attempt counted. -/
theorem textChain_skip (a : StratRes) (rest : List StratRes)
    (h : yieldsNothing a = true) :
    textChainEval (a :: rest) = bumpAttempt (textChainEval rest) := by
  cases a with
  | notFound => rfl
  | raised => simp [yieldsNothing] at h
  | text s =>
    have hs : s = "" := by simpa [yieldsNothing] using h
    simp [textChainEval, hs]

theorem phoneChain_win (a : ElemRes) (rest : List ElemRes) (v : String)
    (h : phoneStratValue a = some v) :
    phoneChainEval (a :: rest) = ⟨some v, false, 1⟩ := by
  cases a with
  | notFound => simp [phoneStratValue] at h
  | raised => simp [phoneStratValue] at h
  | elem href txt =>
    cases href with
    | some s =>
      by_cases h1 : s ≠ "" ∧ strContains s "tel:"
      · simp [phoneStratValue, h1] at h
        simp [phoneChainEval, h1, h]
      · by_cases h2 : txt ≠ ""
        · simp [phoneStratValue, h1, h2] at h
          simp [phoneChainEval, h1, h2, h]
        · simp [phoneStratValue, h1, h2] at h
    | none =>
      by_cases h2 : txt ≠ ""
      · simp [phoneStratValue, h2] at h
        simp [phoneChainEval, h2, h]
      · simp [phoneStratValue, h2] at h

theorem phoneChain_skip (a : ElemRes) (rest : List ElemRes)
    (h : phoneYieldsNothing a = true) :
    phoneChainEval (a :: rest) = bumpAttempt (phoneChainEval rest) := by
  cases a with
  | notFound => rfl
  | raised => simp [phoneYieldsNothing] at h
  | elem href txt =>
    have hv : phoneStratValue (ElemRes.elem href txt) = none := by
      simpa [phoneYieldsNothing] using h
    cases href with
    | some s =>
      by_cases h1 : s ≠ "" ∧ strContains s "tel:"
      · simp [phoneStratValue, h1] at hv
      · by_cases h2 : txt ≠ ""
        · simp [phoneStratValue, h1, h2] at hv
        · simp [phoneChainEval, h1, h2]
    | none =>
      by_cases h2 : txt ≠ ""
      · simp [phoneStratValue, h2] at hv
      · simp [phoneChainEval, h2]

theorem emailChain_win (a : ElemRes) (rest : List ElemRes) (v : String)
    (h : emailStratValue a = some v) :
    emailChainEval (a :: rest) = ⟨some v, false, 1⟩ := by
  cases a with
  | notFound => simp [emailStratValue] at h
  | raised => simp [emailStratValue] at h
  | elem href txt =>
    cases href with
    | some s =>
      by_cases h1 : s ≠ "" ∧ strContains s "mailto:"
      · simp [emailStratValue, h1] at h
        simp [emailChainEval, h1, h]
      · by_cases h2 : txt ≠ "" ∧ strContains txt "@"
        · simp [emailStratValue, h1, h2] at h
          simp [emailChainEval, h1, h2, h]
        · simp [emailStratValue, h1, h2] at h
    | none =>
      by_cases h2 : txt ≠ "" ∧ strContains txt "@"
      · simp [emailStratValue, h2] at h
        simp [emailChainEval, h2, h]
      · simp [emailStratValue, h2] at h

theorem emailChain_skip (a : ElemRes) (rest : List ElemRes)
    (h : emailYieldsNothing a = true) :
    emailChainEval (a :: rest) = bumpAttempt (emailChainEval rest) := by
  cases a with
  | notFound => rfl
  | raised => simp [emailYieldsNothing] at h
  | elem href txt =>
    have hv : emailStratValue (ElemRes.elem href txt) = none := by
      simpa [emailYieldsNothing] using h
    cases href with
    | some s =>
      by_cases h1 : s ≠ "" ∧ strContains s "mailto:"
      · simp [emailStratValue, h1] at hv
      · by_cases h2 : txt ≠ "" ∧ strContains txt "@"
        · simp [emailStratValue, h1, h2] at hv
        · simp [emailChainEval, h1, h2]
    | none =>
      by_cases h2 : txt ≠ "" ∧ strContains txt "@"
      · simp [emailStratValue, h2] at hv
      · simp [emailChainEval, h2]

/-- C6: first-match-wins over every ordered fallback chain [A, B, C]
used for a field read, for each of the three chain evaluators of the
source (detail text fields, phone, email): when strategy A yields a
value, exactly one strategy is examined and the field equals the value
A yields; when A and B yield nothing and C yields a value, all three
strategies are examined and the field equals the value C yields. -/
theorem C6_fallback_chain
    (a1 b1 c1 : StratRes) (v1 : String) (h1 : textStratValue a1 = some v1)
    (a2 b2 c2 : StratRes) (v2 : String)
    (h2a : yieldsNothing a2 = true) (h2b : yieldsNothing b2 = true)
    (h2c : textStratValue c2 = some v2)
    (a3 b3 c3 : ElemRes) (v3 : String) (h3 : phoneStratValue a3 = some v3)
    (a4 b4 c4 : ElemRes) (v4 : String)
    (h4a : phoneYieldsNothing a4 = true) (h4b : phoneYieldsNothing b4 = true)
    (h4c : phoneStratValue c4 = some v4)
    (a5 b5 c5 : ElemRes) (v5 : String) (h5 : emailStratValue a5 = some v5)
    (a6 b6 c6 : ElemRes) (v6 : String)
    (h6a : emailYieldsNothing a6 = true) (h6b : emailYieldsNothing b6 = true)
    (h6c : emailStratValue c6 = some v6) :
    textChainEval [a1, b1, c1] = ⟨some v1, false, 1⟩ ∧
    textChainEval [a2, b2, c2] = ⟨some v2, false, 3⟩ ∧
    phoneChainEval [a3, b3, c3] = ⟨some v3, false, 1⟩ ∧
    phoneChainEval [a4, b4, c4] = ⟨some v4, false, 3⟩ ∧
    emailChainEval [a5, b5, c5] = ⟨some v5, false, 1⟩ ∧
    emailChainEval [a6, b6, c6] = ⟨some v6, false, 3⟩ := by
  refine ⟨textChain_win a1 [b1, c1] v1 h1, ?_, phoneChain_win a3 [b3, c3] v3 h3,
    ?_, emailChain_win a5 [b5, c5] v5 h5, ?_⟩
  · rw [textChain_skip a2 [b2, c2] h2a, textChain_skip b2 [c2] h2b,
      textChain_win c2 [] v2 h2c]
    rfl
  · rw [phoneChain_skip a4 [b4, c4] h4a, phoneChain_skip b4 [c4] h4b,
      phoneChain_win c4 [] v4 h4c]
    rfl
  · rw [emailChain_skip a6 [b6, c6] h6a, emailChain_skip b6 [c6] h6b,
      emailChain_win c6 [] v6 h6c]
    rfl

theorem C6_fallback_chain_witness :
    textChainEval [StratRes.text "Alice", StratRes.raised, StratRes.notFound] =
      ⟨some "Alice", false, 1⟩ ∧
    textChainEval [StratRes.notFound, StratRes.text "", StratRes.text "Bob"] =
      ⟨some "Bob", false, 3⟩ ∧
    phoneChainEval [ElemRes.elem (some "tel:123") "", ElemRes.notFound,
      ElemRes.notFound] = ⟨some "123", false, 1⟩ ∧
    phoneChainEval [ElemRes.notFound, ElemRes.elem (some "x") "",
      ElemRes.elem none "555"] = ⟨some "555", false, 3⟩ ∧
    emailChainEval [ElemRes.elem (some "mailto:a@b.c") "", ElemRes.notFound,
      ElemRes.notFound] = ⟨some "a@b.c", false, 1⟩ ∧
    emailChainEval [ElemRes.notFound, ElemRes.elem (some "http://x") "",
      ElemRes.elem none "a@b.c"] = ⟨some "a@b.c", false, 3⟩ :=
  C6_fallback_chain
    (StratRes.text "Alice") StratRes.raised StratRes.notFound "Alice" (by decide)
    StratRes.notFound (StratRes.text "") (StratRes.text "Bob") "Bob"
    (by decide) (by decide) (by decide)
    (ElemRes.elem (some "tel:123") "") ElemRes.notFound ElemRes.notFound "123"
    (by decide)
    ElemRes.notFound (ElemRes.elem (some "x") "") (ElemRes.elem none "555") "555"
    (by decide) (by decide) (by decide)
    (ElemRes.elem (some "mailto:a@b.c") "") ElemRes.notFound ElemRes.notFound
    "a@b.c" (by decide)
    ElemRes.notFound (ElemRes.elem (some "http://x") "") (ElemRes.elem none "a@b.c")
    "a@b.c" (by decide) (by decide) (by decide)

/- A detail panel on which the name chain succeeds, the headline read
raises a transient stale-element exception, and the profile link is
present and readable with a canonical /in/ href. -/
def c7Panel : Panel :=
  ⟨[StratRes.text "Alice"], [StratRes.raised],
   LinkRes.found (some "https://www.linkedin.com/in/alice?trk=x")⟩

/-- C7 counterexample: a transient stale-element condition while
reading the headline of c7Panel.  The profile link is present and its
href contains the /in/ marker, so under the claim the profile_url field
would still be read (yielding the href trimmed at the query); instead
the function-level handler aborts the helper and profile_url stays
None.  The stale read thus wipes the remaining fields of the same item,
not only the affected one. -/
theorem C7_counterexample :
    c7Panel.headlineStrats = [StratRes.raised] ∧
    c7Panel.profileLink =
      LinkRes.found (some "https://www.linkedin.com/in/alice?trk=x") ∧
    strContains "https://www.linkedin.com/in/alice?trk=x" "/in/" = true ∧
    beforeQuery "https://www.linkedin.com/in/alice?trk=x" =
      "https://www.linkedin.com/in/alice" ∧
    extract_applicant_details c7Panel =
      { name := some "Alice", headline := none, location := none,
        profile_url := none } := by
  decide

/-- C7 (amended): a transient stale-element condition while reading a
field resolves that field and every later field of the same extraction
helper to empty/absent, while fields already read keep their values;
the extraction still completes (the helpers are total) and the item is
still appended to the results.  Covered positions: the name chain, the
headline chain and the profile-link lookup of extract_applicant_details,
and the phone and email chains of click_contact_and_extract. -/
theorem C7_stale_scope (p1 p2 p3 : Panel) (q1 q2 : ContactPanel)
    (maxA : Nat) (s : ScanState) (c : Card) (a : String)
    (e1 : (textChainEval p1.nameStrats).raised = true)
    (e2n : (textChainEval p2.nameStrats).raised = false)
    (e2h : (textChainEval p2.headlineStrats).raised = true)
    (e3n : (textChainEval p3.nameStrats).raised = false)
    (e3h : (textChainEval p3.headlineStrats).raised = false)
    (e3l : p3.profileLink = LinkRes.raised)
    (f1b : findContactBtn q1.btnSelectors = true) (f1c : q1.clickRaises = false)
    (f1p : (phoneChainEval q1.phoneStrats).raised = true)
    (f2b : findContactBtn q2.btnSelectors = true) (f2c : q2.clickRaises = false)
    (f2p : (phoneChainEval q2.phoneStrats).raised = false)
    (f2e : (emailChainEval q2.emailStrats).raised = true)
    (h1 : s.totalProcessed < maxA) (h2 : c.ariaRaises = false) (h3 : c.aria = some a)
    (h4 : strContains a ", Verified profile" = true) (h5 : cardName a ≠ "")
    (h6 : cardName a ∉ s.processedNames) (h7 : c.clickRaises = false) :
    extract_applicant_details p1 =
      { name := none, headline := none, location := none, profile_url := none } ∧
    extract_applicant_details p2 =
      { name := (textChainEval p2.nameStrats).value, headline := none,
        location := none, profile_url := none } ∧
    extract_applicant_details p3 =
      { name := (textChainEval p3.nameStrats).value,
        headline := (textChainEval p3.headlineStrats).value,
        location := none, profile_url := none } ∧
    click_contact_and_extract q1 = { phone := none, email := none } ∧
    click_contact_and_extract q2 =
      { phone := (phoneChainEval q2.phoneStrats).value, email := none } ∧
    (processCards maxA [c] s 0).1.applicants.length = s.applicants.length + 1 := by
  refine ⟨?_, ?_, ?_, ?_, ?_, ?_⟩
  · unfold extract_applicant_details
    dsimp only
    rw [e1, if_pos rfl]
  · unfold extract_applicant_details
    dsimp only
    rw [e2n, if_neg Bool.false_ne_true, e2h, if_pos rfl]
  · unfold extract_applicant_details
    dsimp only
    rw [e3n, if_neg Bool.false_ne_true, e3h, if_neg Bool.false_ne_true, e3l]
  · unfold click_contact_and_extract
    dsimp only
    rw [f1b, if_neg (by simp), f1c, if_neg Bool.false_ne_true, f1p, if_pos rfl]
  · unfold click_contact_and_extract
    dsimp only
    rw [f2b, if_neg (by simp), f2c, if_neg Bool.false_ne_true, f2p,
      if_neg Bool.false_ne_true, f2e, if_pos rfl]
  · rw [processCards_cons maxA c [] s 0 (by omega),
      processCard1_append c s a h2 h3 h4 h5 h6 h7]
    dsimp only [processCards]
    simp

def c7Card : Card :=
  { ariaRaises := false, aria := some "Carol, Verified profile", clickRaises := false,
    panel := c7Panel, contact := staleContact }

/- Concrete stale positions for the C7 witness: stale at the name
chain, stale at the profile-link lookup, and stale at the phone and
email chains behind a visible enabled Contact button. -/
def c7PanelNameStale : Panel :=
  ⟨[StratRes.raised], [StratRes.text "H"], LinkRes.notFound⟩

def c7PanelLinkStale : Panel :=
  ⟨[StratRes.text "Alice"], [StratRes.notFound], LinkRes.raised⟩

def c7ContactPhoneStale : ContactPanel :=
  ⟨[[⟨true, true⟩]], false, [ElemRes.raised], []⟩

def c7ContactEmailStale : ContactPanel :=
  ⟨[[⟨true, true⟩]], false, [ElemRes.elem (some "tel:1") ""], [ElemRes.raised]⟩

theorem C7_stale_scope_witness :
    (textChainEval c7PanelNameStale.nameStrats).raised = true ∧
    (textChainEval c7Panel.headlineStrats).raised = true ∧
    c7PanelLinkStale.profileLink = LinkRes.raised ∧
    (extract_applicant_details c7PanelNameStale =
      { name := none, headline := none, location := none, profile_url := none } ∧
    extract_applicant_details c7Panel =
      { name := (textChainEval c7Panel.nameStrats).value, headline := none,
        location := none, profile_url := none } ∧
    extract_applicant_details c7PanelLinkStale =
      { name := (textChainEval c7PanelLinkStale.nameStrats).value,
        headline := (textChainEval c7PanelLinkStale.headlineStrats).value,
        location := none, profile_url := none } ∧
    click_contact_and_extract c7ContactPhoneStale = { phone := none, email := none } ∧
    click_contact_and_extract c7ContactEmailStale =
      { phone := (phoneChainEval c7ContactEmailStale.phoneStrats).value,
        email := none } ∧
    (processCards 5 [c7Card] scanInit 0).1.applicants.length =
      scanInit.applicants.length + 1) :=
  ⟨by decide, by decide, rfl,
    C7_stale_scope c7PanelNameStale c7Panel c7PanelLinkStale c7ContactPhoneStale
      c7ContactEmailStale 5 scanInit c7Card "Carol, Verified profile"
      (by decide) (by decide) (by decide) (by decide) (by decide) rfl
      (by decide) rfl (by decide) (by decide) rfl (by decide) (by decide)
      (by decide) rfl rfl (by decide) (by decide)
      (fun hmem => absurd hmem (List.not_mem_nil _)) rfl⟩

/-- C8: a fresh card whose Contact control is absent or not clickable
(no selector hit is both displayed and enabled) is still turned into an
item and appended with phone and email empty, and the processed counter
is incremented for it exactly as for items whose reveal succeeded. -/
theorem C8_reveal_absent (maxA : Nat) (s : ScanState) (c : Card) (a : String)
    (h1 : s.totalProcessed < maxA) (h2 : c.ariaRaises = false) (h3 : c.aria = some a)
    (h4 : strContains a ", Verified profile" = true) (h5 : cardName a ≠ "")
    (h6 : cardName a ∉ s.processedNames) (h7 : c.clickRaises = false)
    (h8 : findContactBtn c.contact.btnSelectors = false) :
    ∃ item : Applicant,
      (processCards maxA [c] s 0).1.applicants = s.applicants ++ [item] ∧
      item.phone = none ∧ item.email = none ∧
      (processCards maxA [c] s 0).1.totalProcessed = s.totalProcessed + 1 ∧
      (processCards maxA [c] s 0).2 = 1 := by
  have hcc : click_contact_and_extract c.contact = ⟨none, none⟩ := by
    unfold click_contact_and_extract
    rw [if_pos (by simp [h8])]
  rw [processCards_cons maxA c [] s 0 (by omega),
    processCard1_append c s a h2 h3 h4 h5 h6 h7, hcc]
  exact ⟨_, rfl, rfl, rfl, rfl, rfl⟩

/- A card whose detail panel reads fine but whose Contact button search
finds only a hidden, disabled button. -/
def noRevealContact : ContactPanel :=
  ⟨[[⟨false, false⟩]], false, [], []⟩

def noRevealCard : Card :=
  { ariaRaises := false, aria := some "Dana, Verified profile", clickRaises := false,
    panel := stalePanel, contact := noRevealContact }

theorem C8_reveal_absent_witness :
    scanInit.totalProcessed < 5 ∧
    findContactBtn noRevealCard.contact.btnSelectors = false ∧
    (∃ item : Applicant,
      (processCards 5 [noRevealCard] scanInit 0).1.applicants =
        scanInit.applicants ++ [item] ∧
      item.phone = none ∧ item.email = none ∧
      (processCards 5 [noRevealCard] scanInit 0).1.totalProcessed =
        scanInit.totalProcessed + 1 ∧
      (processCards 5 [noRevealCard] scanInit 0).2 = 1) :=
  ⟨by decide, by decide,
    C8_reveal_absent 5 scanInit noRevealCard "Dana, Verified profile"
      (by decide) rfl rfl (by decide) (by decide)
      (fun hmem => absurd hmem (List.not_mem_nil _)) rfl (by decide)⟩

/-- C9: across the rounds of the scan-and-extract loop the processed
counter is non-decreasing, and whenever a round actually runs (the
guard held) the no-progress counter ends at zero exactly when the round
processed at least one new item, and is incremented by one on every
other round. -/
theorem C9_progress (rounds : Nat → List Card) (maxA n : Nat) :
    (scanSteps rounds maxA n).totalProcessed ≤
      (scanSteps rounds maxA (n + 1)).totalProcessed ∧
    (scanGuard maxA (scanSteps rounds maxA n) →
      ((scanSteps rounds maxA (n + 1)).consecutiveNoProgress = 0 ↔
        (scanSteps rounds maxA n).totalProcessed <
          (scanSteps rounds maxA (n + 1)).totalProcessed) ∧
      ((scanSteps rounds maxA (n + 1)).totalProcessed =
          (scanSteps rounds maxA n).totalProcessed →
        (scanSteps rounds maxA (n + 1)).consecutiveNoProgress =
          (scanSteps rounds maxA n).consecutiveNoProgress + 1)) := by
  by_cases hg : scanGuard maxA (scanSteps rounds maxA n)
  · rw [scanSteps_succ_round rounds maxA n hg]
    obtain ⟨R1, _, _, R4, R5⟩ := scanRound_spec rounds maxA n (scanSteps rounds maxA n)
    exact ⟨R1, fun _ => ⟨R4, R5⟩⟩
  · rw [scanSteps_succ_stay rounds maxA n hg]
    exact ⟨le_refl _, fun h => absurd h hg⟩

theorem C9_progress_witness :
    scanGuard 1 (scanSteps emptyRounds 1 0) ∧
    ((scanSteps emptyRounds 1 0).totalProcessed ≤
      (scanSteps emptyRounds 1 1).totalProcessed ∧
    (((scanSteps emptyRounds 1 1).consecutiveNoProgress = 0 ↔
      (scanSteps emptyRounds 1 0).totalProcessed <
        (scanSteps emptyRounds 1 1).totalProcessed) ∧
    ((scanSteps emptyRounds 1 1).totalProcessed =
        (scanSteps emptyRounds 1 0).totalProcessed →
      (scanSteps emptyRounds 1 1).consecutiveNoProgress =
        (scanSteps emptyRounds 1 0).consecutiveNoProgress + 1))) :=
  ⟨by decide, (C9_progress emptyRounds 1 0).1,
    (C9_progress emptyRounds 1 0).2 (by decide)⟩

/-- C10: for every run environment and every caller-supplied
max_applicants bound, the applicants list of the returned result holds
at most max_applicants items — in get_applicants_with_contact because
the per-card loop stops appending once the processed counter reaches the
bound, and in get_job_applicants because the collected list is trimmed
to the bound before the summary is built. -/
theorem C10_max_items (env : RunEnv) (genv : GjaEnv) (job gjob : String) (maxA : Nat) :
    (resultItems (get_applicants_with_contact env job maxA)).length ≤ maxA ∧
    (gjaItems (get_job_applicants genv gjob maxA)).length ≤ maxA := by
  constructor
  · unfold get_applicants_with_contact
    by_cases hU : ¬ landedOk env.currentUrl
    · rw [if_pos hU]
      simp [resultItems]
    · rw [if_neg hU]
      by_cases hic : (if env.initCount1 = 0 then env.initCount2 else env.initCount1) = 0
      · rw [if_pos hic]
        simp [resultItems]
      · rw [if_neg hic]
        obtain ⟨I1, _, I3, _, _⟩ := scanSteps_inv env.rounds maxA (51 * maxA + 51)
        simp only [resultItems, scanFinal]
        omega
  · unfold get_job_applicants
    by_cases hU : ¬ landedOk genv.currentUrl
    · rw [if_pos hU]
      simp [gjaItems]
    · rw [if_neg hU]
      simp only [gjaItems]
      exact List.length_take_le _ _
